import Mathlib

/-!
Verification of the `py-gpt` excerpt: the LangChain dispatch `Chain.call`
(`src/pygpt_net/core/chain/__init__.py`) and the mode controller
(`src/pygpt_net/controller/mode.py`).

The Python code is shallowly embedded: the two wrapper objects (`Chat`,
`Completion`) and the `window` object graph are oracles supplied as
parameters, exceptions are `Except.error`, and the in-place mutation of the
context item is explicit state passing.  Every definition is translated from
the source file it names; classes of this repository that are outside the
excerpt (`CtxItem`, `BridgeContext`, `ModelItem`, `Event`) are modelled from
the spec, as marked in their doc comments.
-/

/-- Response of the chat wrapper `send` in non-stream mode: an object exposing
a `content` attribute (the LangChain AI message), as read by `Chain.call` in
`output = response.content`. -/
structure ChatResp where
  content : String
deriving DecidableEq, Repr

/-- A value produced by one of the two wrapper `send` methods, as stored into
`ctx.stream`: the chat wrapper yields message objects, the completion wrapper
yields plain strings. -/
inductive RespVal where
  | chat (r : ChatResp)
  | compl (s : String)
deriving DecidableEq, Repr

/-- Modelled from the spec: the context item (`pygpt_net.item.ctx.CtxItem`,
whose module is not in the excerpt) is "an in-memory record of one
conversational turn (input text, output text, token counts, speaker names)".
Only the attributes read or written by `Chain.call` appear; a freshly
constructed `CtxItem()` ("create empty context") has `None` speaker names,
no output, no stream and zero input tokens. -/
structure CtxItem where
  input_name : Option String := none
  output_name : Option String := none
  output : Option String := none
  input_tokens : Nat := 0
  stream : Option RespVal := none
deriving DecidableEq, Repr

/-- Modelled from the spec: `CtxItem.set_output(output, name)` stores the
output text and the output speaker name on the context item. -/
def CtxItem.set_output (c : CtxItem) (o : String) (n : Option String) : CtxItem :=
  { c with output := some o, output_name := n }

/-- Modelled from the spec: the model item (`pygpt_net.item.model.ModelItem`,
whose module is not in the excerpt) as used by `Chain.call`: its `langchain`
dictionary, here an association list from string keys to lists of string
values (the code reads only the key `mode`, a list of sub-mode names). -/
structure ModelItem where
  langchain : List (String × List String)
deriving DecidableEq, Repr

/-- Python `k in d` on the `langchain` dictionary. -/
def hasKey (d : List (String × List String)) (k : String) : Bool :=
  d.any (fun p => p.1 == k)

/-- Python `d[k]` on the `langchain` dictionary (unused default for an absent
key, which the code guards against with `k in d`). -/
def getKey (d : List (String × List String)) (k : String) : List String :=
  match d.find? (fun p => p.1 == k) with
  | some p => p.2
  | none => []

/-- Modelled from the spec: the bridge context
(`pygpt_net.core.bridge.context.BridgeContext`, whose module is not in the
excerpt) is "a parameter-passing object carrying prompt, system prompt,
target model, streaming flag, and history"; `Chain.call` additionally reads
its `ctx` attribute (the context item of the current turn, possibly `None`).
`extra` stands for any further data the real object carries that
`Chain.call` never reads. -/
structure BridgeContext where
  prompt : String
  system_prompt : String
  stream : Bool
  model : ModelItem
  ctx : Option CtxItem
  history : List CtxItem
  extra : Nat := 0
deriving DecidableEq, Repr

/-- The keyword arguments `Chain.call` passes to a wrapper `send`
(`prompt=`, `system_prompt=`, `model=`, `history=`, `stream=`, `ai_name=`,
`user_name=`). -/
structure SendArgs where
  prompt : String
  system_prompt : String
  model : ModelItem
  history : List CtxItem
  stream : Bool
  ai_name : Option String
  user_name : Option String
deriving DecidableEq, Repr

/-- A Python exception value, identified by a tag. -/
structure Exc where
  tag : Nat
deriving DecidableEq, Repr

/-- Oracle for the two pre-built wrapper objects held by `Chain`.
`chatSend` models `Chat.send` (raising is `.error`, returning `None` is
`.ok none`) and `chatUsed` models the value `Chat.get_used_tokens()` reports
after that send; `complSend` and `complUsed` are the same for `Completion`. -/
structure Wrappers where
  chatSend : SendArgs → Except Exc (Option ChatResp)
  chatUsed : Nat
  complSend : SendArgs → Except Exc (Option String)
  complUsed : Nat

deriving instance DecidableEq for Except

/-- Observable outcome of one run of `Chain.call`: the returned bool or the
re-raised exception, the final state of the (effective) context item, the
argument lists of the wrapper `send` calls made, and the exceptions passed to
`self.window.core.debug.log`. -/
structure CallResult where
  ret : Except Exc Bool
  ctx : CtxItem
  chatCalls : List SendArgs
  complCalls : List SendArgs
  logged : List Exc
deriving DecidableEq, Repr

/-- Sub-mode selection of `Chain.call` (`sub_mode = 'chat'` then the
`if 'mode' in model.langchain` block): `chat` when listed, else `completion`
when listed, else the initial `chat`. -/
def Chain.sub_mode (model : ModelItem) : String :=
  if hasKey model.langchain "mode" then
    if (getKey model.langchain "mode").contains "chat" then "chat"
    else if (getKey model.langchain "mode").contains "completion" then "completion"
    else "chat"
  else "chat"

/-- Body of `Chain.call` after its locals `prompt`, `system_prompt`,
`stream`, `model` are read from the bridge context and `ctx` is resolved
(`context.ctx`, or `CtxItem()` when that is `None`): the try block around the
selected `send`, the stream branch, the `response is None` branch, and the
`set_output` copy, exactly as in the source. -/
def Chain.callCore (w : Wrappers) (prompt system_prompt : String) (stream : Bool)
    (model : ModelItem) (ctx : CtxItem) (history : List CtxItem) : CallResult :=
  let user_name := ctx.input_name
  let ai_name := ctx.output_name
  let sub_mode := Chain.sub_mode model
  let args : SendArgs :=
    { prompt := prompt, system_prompt := system_prompt, model := model,
      history := history, stream := stream,
      ai_name := ai_name, user_name := user_name }
  let attempt : Except Exc (Option RespVal × Nat) × List SendArgs × List SendArgs :=
    if sub_mode = "chat" then
      (match w.chatSend args with
        | .error e => .error e
        | .ok r => .ok (r.map RespVal.chat, w.chatUsed), [args], [])
    else if sub_mode = "completion" then
      (match w.complSend args with
        | .error e => .error e
        | .ok r => .ok (r.map RespVal.compl, w.complUsed), [], [args])
    else
      (.ok (none, 0), [], [])
  match attempt with
  | (.error e, cc, pc) =>
    { ret := .error e, ctx := ctx, chatCalls := cc, complCalls := pc, logged := [e] }
  | (.ok (response, used_tokens), cc, pc) =>
    if stream then
      { ret := .ok true,
        ctx := ({ ctx with stream := response, input_tokens := used_tokens
                }).set_output "" ai_name,
        chatCalls := cc, complCalls := pc, logged := [] }
    else
      match response with
      | none =>
        { ret := .ok false, ctx := ctx, chatCalls := cc, complCalls := pc, logged := [] }
      | some rv =>
        let output := match rv with
          | .chat r => r.content
          | .compl s => s
        { ret := .ok true, ctx := ctx.set_output output ai_name,
          chatCalls := cc, complCalls := pc, logged := [] }

/-- `Chain.call(context)`: read `prompt`, `system_prompt`, `stream`, `model`
and `ctx` off the bridge context (with `ctx = CtxItem()` when `context.ctx`
is `None`) and run the body. -/
def Chain.call (w : Wrappers) (context : BridgeContext) : CallResult :=
  Chain.callCore w context.prompt context.system_prompt context.stream context.model
    (match context.ctx with
      | some c => c
      | none => {})
    context.history

/-- The context item `Chain.call` operates on: `context.ctx`, or a fresh
`CtxItem()` when that is `None`. -/
def effCtx (c : BridgeContext) : CtxItem :=
  match c.ctx with
  | some x => x
  | none => {}

/-- The argument record `Chain.call` builds for the selected wrapper `send`,
expressed over the bridge context. -/
def callArgs (c : BridgeContext) : SendArgs :=
  { prompt := c.prompt, system_prompt := c.system_prompt, model := c.model,
    history := c.history, stream := c.stream,
    ai_name := (effCtx c).output_name, user_name := (effCtx c).input_name }

/-- The chat wrapper (alone) was invoked in this run. -/
def chatInvoked (r : CallResult) : Bool :=
  !r.chatCalls.isEmpty && r.complCalls.isEmpty

/-- The completion wrapper (alone) was invoked in this run. -/
def complInvoked (r : CallResult) : Bool :=
  !r.complCalls.isEmpty && r.chatCalls.isEmpty

/-- Outcome of the `sub_mode == 'chat'` path of `Chain.call`, as a function of
the send arguments, the effective context item and the stream flag (proof
helper; see `Chain.call_split`). -/
def chatOutcome (w : Wrappers) (args : SendArgs) (ctx : CtxItem) (stream : Bool) : CallResult :=
  match w.chatSend args with
  | .error e =>
    { ret := .error e, ctx := ctx, chatCalls := [args], complCalls := [], logged := [e] }
  | .ok r =>
    if stream then
      { ret := .ok true,
        ctx := ({ ctx with stream := r.map RespVal.chat, input_tokens := w.chatUsed
                }).set_output "" ctx.output_name,
        chatCalls := [args], complCalls := [], logged := [] }
    else
      match r with
      | none =>
        { ret := .ok false, ctx := ctx, chatCalls := [args], complCalls := [], logged := [] }
      | some resp =>
        { ret := .ok true, ctx := ctx.set_output resp.content ctx.output_name,
          chatCalls := [args], complCalls := [], logged := [] }

/-- Outcome of the `sub_mode == 'completion'` path of `Chain.call` (proof
helper; see `Chain.call_split`). -/
def complOutcome (w : Wrappers) (args : SendArgs) (ctx : CtxItem) (stream : Bool) : CallResult :=
  match w.complSend args with
  | .error e =>
    { ret := .error e, ctx := ctx, chatCalls := [], complCalls := [args], logged := [e] }
  | .ok r =>
    if stream then
      { ret := .ok true,
        ctx := ({ ctx with stream := r.map RespVal.compl, input_tokens := w.complUsed
                }).set_output "" ctx.output_name,
        chatCalls := [], complCalls := [args], logged := [] }
    else
      match r with
      | none =>
        { ret := .ok false, ctx := ctx, chatCalls := [], complCalls := [args], logged := [] }
      | some s =>
        { ret := .ok true, ctx := ctx.set_output s ctx.output_name,
          chatCalls := [], complCalls := [args], logged := [] }

/-- Modelled from the spec: the symbolic event name `Event.MODE_SELECT` of
`pygpt_net.core.dispatcher` (whose module is not in the excerpt). -/
def Event.MODE_SELECT : String := "MODE_SELECT"

/-- One externally visible step of the mode controller: a configuration
write (`window.core.config.set`), a call into another controller or UI
object, an event dispatched through `window.core.dispatcher`, or a status
bar message (`window.ui.status`). -/
inductive ModeEffect where
  | configSet (key : String) (value : String)
  | callOut (target : String)
  | dispatch (eventName : String) (value : String)
  | status (msg : String)
deriving DecidableEq, Repr

/-- The parts of the `window` object graph the mode controller reads:
`controller.chat.input.generating`, `core.ctx.current`, `core.ctx.assistant`
and the list-row resolver `core.modes.get_by_idx` (whose module is not in the
excerpt, modelled as an oracle from row index to mode name). -/
structure WindowState where
  generating : Bool
  ctx_current : Option Nat
  ctx_assistant : Option String
  get_by_idx : Nat → String

/-- `Mode.change_locked`: the mode change is locked exactly when
`window.controller.chat.input.generating` holds. -/
def Mode.change_locked (win : WindowState) : Bool :=
  win.generating

/-- `Mode.set(mode)` as its trace of effects: the `assistant` pre-switch
block, the three `config.set` writes (`mode`, then the resets of `model` and
`preset` to the empty string), the attachment/ctx/UI updates, the ready
status (`trans('status.started')`, kept as the key since `trans` is not in
the excerpt), and the `assistant` label update. -/
def Mode.set (win : WindowState) (mode : String) : List ModeEffect :=
  (if mode = "assistant" then
    ModeEffect.callOut "controller.presets.select_default" ::
    (if win.ctx_current.isSome && win.ctx_assistant.isSome then
      [ModeEffect.callOut "controller.assistant.select_by_id"]
    else
      [ModeEffect.callOut "controller.assistant.select_current"])
  else []) ++
  [ModeEffect.configSet "mode" mode,
   ModeEffect.configSet "model" "",
   ModeEffect.configSet "preset" "",
   ModeEffect.callOut "controller.attachment.update",
   ModeEffect.callOut "controller.ctx.update_ctx",
   ModeEffect.callOut "controller.ui.update",
   ModeEffect.status "status.started"] ++
  (if mode = "assistant" then
    [ModeEffect.callOut "controller.ctx.common.update_label_by_current"]
  else [])

/-- `Mode.select(idx)`: return immediately when `change_locked()`, otherwise
resolve the mode via `core.modes.get_by_idx(idx)`, run `set(mode)`, then
dispatch `Event(Event.MODE_SELECT, ...)` carrying that mode as its
`value`. -/
def Mode.select (win : WindowState) (idx : Nat) : List ModeEffect :=
  if Mode.change_locked win then []
  else
    let mode := win.get_by_idx idx
    Mode.set win mode ++ [ModeEffect.dispatch Event.MODE_SELECT mode]

/-- The configuration writes of an effect trace, in order. -/
def configWrites (t : List ModeEffect) : List (String × String) :=
  t.filterMap (fun e =>
    match e with
    | ModeEffect.configSet k v => some (k, v)
    | _ => none)

/-- Concrete wrapper oracle used to instantiate the universally quantified
theorems. -/
def wEx : Wrappers :=
  { chatSend := fun _ => Except.ok (some { content := "hello" }),
    chatUsed := 7,
    complSend := fun _ => Except.ok (some "done"),
    complUsed := 3 }

/-- Concrete model whose `langchain` dictionary lists only the `completion`
sub-mode. -/
def modelComplEx : ModelItem := { langchain := [("mode", ["completion"])] }

/-- Concrete context item with both speaker names set. -/
def ctxEx : CtxItem := { input_name := some "user", output_name := some "ai" }

/-- Concrete bridge context (chat model, no streaming). -/
def bcEx : BridgeContext :=
  { prompt := "p", system_prompt := "s", stream := false,
    model := { langchain := [("mode", ["chat"])] },
    ctx := some ctxEx, history := [] }

/-- Concrete streaming bridge context. -/
def bcStreamEx : BridgeContext := { bcEx with stream := true }

/-- Wrapper oracle that agrees with `wEx` on the arguments `Chain.call`
builds from `bcEx` but differs elsewhere. -/
def wEx2 : Wrappers :=
  { wEx with
    complSend := fun a =>
      if a.prompt = "other" then Except.ok none else Except.ok (some "done") }

/-- Concrete bridge contexts agreeing on prompt, system prompt, model,
stream flag and history, but carrying context items with different speaker
names. -/
def cexC1 : BridgeContext := { bcEx with ctx := some { input_name := some "alice" } }

/-- Second context of the pair: same five carried fields, different context
item. -/
def cexC2 : BridgeContext := { bcEx with ctx := some { input_name := some "bob" } }

/-- Bridge context equal to `cexC1` except in the data `Chain.call` never
reads. -/
def cexC3 : BridgeContext := { cexC1 with extra := 1 }

/-- Wrapper oracle whose chat send returns `None`. -/
def wNone : Wrappers := { wEx with chatSend := fun _ => Except.ok none }

/-- Wrapper oracle whose chat send raises. -/
def wRaise : Wrappers := { wEx with chatSend := fun _ => Except.error { tag := 5 } }

/-- Concrete window state: not generating, no current ctx, no assistant,
every list row resolving to the mode name `chat`. -/
def winEx : WindowState :=
  { generating := false, ctx_current := none, ctx_assistant := none,
    get_by_idx := fun _ => "chat" }

theorem Chain.sub_mode_cases (m : ModelItem) :
    Chain.sub_mode m = "chat" ∨ Chain.sub_mode m = "completion" := by
  unfold Chain.sub_mode
  split_ifs <;> simp

theorem Chain.call_eq_core (w : Wrappers) (c : BridgeContext) :
    Chain.call w c =
      Chain.callCore w c.prompt c.system_prompt c.stream c.model (effCtx c) c.history := rfl

theorem Chain.call_split (w : Wrappers) (c : BridgeContext) :
    Chain.call w c =
      if Chain.sub_mode c.model = "chat" then
        chatOutcome w (callArgs c) (effCtx c) c.stream
      else
        complOutcome w (callArgs c) (effCtx c) c.stream := by
  rcases Chain.sub_mode_cases c.model with h | h <;>
    simp only [Chain.call, Chain.callCore, callArgs, effCtx, chatOutcome, complOutcome, h,
      reduceIte, String.reduceEq]
  · cases w.chatSend _ with
    | error e => simp
    | ok r => cases r <;> cases c.stream <;> simp
  · cases w.complSend _ with
    | error e => simp
    | ok r => cases r <;> cases c.stream <;> simp

theorem chatOutcome_invoked (w : Wrappers) (a : SendArgs) (ctx : CtxItem) (st : Bool) :
    chatInvoked (chatOutcome w a ctx st) = true := by
  unfold chatOutcome chatInvoked
  cases w.chatSend a with
  | error e => simp
  | ok r => cases r <;> cases st <;> simp

theorem complOutcome_invoked (w : Wrappers) (a : SendArgs) (ctx : CtxItem) (st : Bool) :
    complInvoked (complOutcome w a ctx st) = true := by
  unfold complOutcome complInvoked
  cases w.complSend a with
  | error e => simp
  | ok r => cases r <;> cases st <;> simp

/-- C1: the sub-mode of `Chain.call` is selected from the model's `langchain`
dictionary: with a `mode` key listing `chat` the chat wrapper's send is
invoked; otherwise with `completion` listed the completion wrapper's send is
invoked; in every other case (no `mode` key, or neither name listed) the
default sub-mode `chat` applies and the chat wrapper's send is invoked. -/
theorem chain_call_sub_mode_selection (w : Wrappers) (c : BridgeContext) :
    (hasKey c.model.langchain "mode" = false →
      chatInvoked (Chain.call w c) = true) ∧
    (hasKey c.model.langchain "mode" = true →
      (getKey c.model.langchain "mode").contains "chat" = true →
      chatInvoked (Chain.call w c) = true) ∧
    (hasKey c.model.langchain "mode" = true →
      (getKey c.model.langchain "mode").contains "chat" = false →
      (getKey c.model.langchain "mode").contains "completion" = true →
      complInvoked (Chain.call w c) = true) ∧
    (hasKey c.model.langchain "mode" = true →
      (getKey c.model.langchain "mode").contains "chat" = false →
      (getKey c.model.langchain "mode").contains "completion" = false →
      chatInvoked (Chain.call w c) = true) := by
  refine ⟨fun h1 => ?_, fun h1 h2 => ?_, fun h1 h2 h3 => ?_, fun h1 h2 h3 => ?_⟩ <;>
    rw [Chain.call_split]
  · have hm : Chain.sub_mode c.model = "chat" := by unfold Chain.sub_mode; simp [h1]
    simp [hm, chatOutcome_invoked]
  · have hm : Chain.sub_mode c.model = "chat" := by
      unfold Chain.sub_mode; simp only [h1, h2]; simp
    simp [hm, chatOutcome_invoked]
  · have hm : Chain.sub_mode c.model = "completion" := by
      unfold Chain.sub_mode; simp only [h1, h2, h3]; simp
    simp [hm, complOutcome_invoked]
  · have hm : Chain.sub_mode c.model = "chat" := by
      unfold Chain.sub_mode; simp only [h1, h2, h3]; simp
    simp [hm, chatOutcome_invoked]

theorem chain_call_sub_mode_selection_witness :
    complInvoked (Chain.call wEx { bcEx with model := modelComplEx }) = true :=
  (chain_call_sub_mode_selection wEx { bcEx with model := modelComplEx }).2.2.1
    (by decide) (by decide) (by decide)

/-- C2: the selected wrapper's send receives the bridge context's fields
unchanged (`prompt`, `system_prompt`, `model`, `history`, `stream`) and the
speaker names of the context item (`user_name = ctx.input_name`,
`ai_name = ctx.output_name`): the one send call of any run carries exactly
`callArgs c`. -/
theorem chain_call_forwards_context (w : Wrappers) (c : BridgeContext) :
    (Chain.call w c).chatCalls ++ (Chain.call w c).complCalls = [callArgs c] ∧
    (callArgs c).prompt = c.prompt ∧
    (callArgs c).system_prompt = c.system_prompt ∧
    (callArgs c).model = c.model ∧
    (callArgs c).history = c.history ∧
    (callArgs c).stream = c.stream ∧
    (callArgs c).user_name = (effCtx c).input_name ∧
    (callArgs c).ai_name = (effCtx c).output_name := by
  refine ⟨?_, rfl, rfl, rfl, rfl, rfl, rfl, rfl⟩
  rw [Chain.call_split]
  rcases Chain.sub_mode_cases c.model with h | h <;> simp [h, chatOutcome, complOutcome]
  · cases w.chatSend (callArgs c) with
    | error e => simp
    | ok r => cases r <;> cases c.stream <;> simp
  · cases w.complSend (callArgs c) with
    | error e => simp
    | ok r => cases r <;> cases c.stream <;> simp

/-- C3: with `stream` false and a non-`None` response from the selected
wrapper, `Chain.call` returns `True` and copies the result into the context
item via `set_output`: under sub-mode `chat` the stored output is
`response.content`, under sub-mode `completion` it is the response itself,
both paired with `ai_name` (the context item's `output_name`). -/
theorem chain_call_nonstream_output (w : Wrappers) (c : BridgeContext)
    (hs : c.stream = false) :
    (∀ r : ChatResp, Chain.sub_mode c.model = "chat" →
      w.chatSend (callArgs c) = Except.ok (some r) →
      (Chain.call w c).ret = Except.ok true ∧
      (Chain.call w c).ctx = (effCtx c).set_output r.content (effCtx c).output_name) ∧
    (∀ s : String, Chain.sub_mode c.model = "completion" →
      w.complSend (callArgs c) = Except.ok (some s) →
      (Chain.call w c).ret = Except.ok true ∧
      (Chain.call w c).ctx = (effCtx c).set_output s (effCtx c).output_name) := by
  constructor
  · intro r hm hsend
    rw [Chain.call_split]
    simp [hm, chatOutcome, hsend, hs]
  · intro s hm hsend
    rw [Chain.call_split]
    simp [hm, chatOutcome, complOutcome, hsend, hs]

theorem chain_call_nonstream_output_witness :
    bcEx.stream = false ∧
    (Chain.call wEx bcEx).ret = Except.ok true ∧
    (Chain.call wEx bcEx).ctx =
      (effCtx bcEx).set_output "hello" (effCtx bcEx).output_name :=
  ⟨rfl, (chain_call_nonstream_output wEx bcEx rfl).1
    { content := "hello" } (by decide) (by decide)⟩

/-- C4: with `stream` true, `Chain.call` stores the wrapper's response object
in `ctx.stream`, records the wrapper-reported used token count in
`ctx.input_tokens`, sets the context item's output to the empty string with
`ai_name`, and returns `True`. -/
theorem chain_call_stream_mode (w : Wrappers) (c : BridgeContext)
    (hs : c.stream = true) :
    (∀ ro : Option ChatResp, Chain.sub_mode c.model = "chat" →
      w.chatSend (callArgs c) = Except.ok ro →
      (Chain.call w c).ret = Except.ok true ∧
      (Chain.call w c).ctx =
        ({ effCtx c with stream := ro.map RespVal.chat, input_tokens := w.chatUsed
          }).set_output "" (effCtx c).output_name) ∧
    (∀ ro : Option String, Chain.sub_mode c.model = "completion" →
      w.complSend (callArgs c) = Except.ok ro →
      (Chain.call w c).ret = Except.ok true ∧
      (Chain.call w c).ctx =
        ({ effCtx c with stream := ro.map RespVal.compl, input_tokens := w.complUsed
          }).set_output "" (effCtx c).output_name) := by
  constructor <;> intro ro hm hsend <;> rw [Chain.call_split] <;>
    simp [hm, chatOutcome, complOutcome, hsend, hs]

theorem chain_call_stream_mode_witness :
    bcStreamEx.stream = true ∧
    (Chain.call wEx bcStreamEx).ret = Except.ok true ∧
    (Chain.call wEx bcStreamEx).ctx =
      ({ effCtx bcStreamEx with
          stream := (some { content := "hello" } : Option ChatResp).map RespVal.chat,
          input_tokens := wEx.chatUsed }).set_output "" (effCtx bcStreamEx).output_name :=
  ⟨rfl, (chain_call_stream_mode wEx bcStreamEx rfl).1
    (some { content := "hello" }) (by decide) (by decide)⟩

/-- C5: `Chain.call` performs no LLM computation itself and is deterministic
relative to the wrappers: two runs on the same bridge context in which the
wrapper calls (the selected `send` at the forwarded arguments, and the
`get_used_tokens` reads) return equal values produce the same return value,
the same final context item, the same send calls and the same log. -/
theorem chain_call_deterministic (w1 w2 : Wrappers) (c : BridgeContext)
    (h1 : w1.chatSend (callArgs c) = w2.chatSend (callArgs c))
    (h2 : w1.chatUsed = w2.chatUsed)
    (h3 : w1.complSend (callArgs c) = w2.complSend (callArgs c))
    (h4 : w1.complUsed = w2.complUsed) :
    Chain.call w1 c = Chain.call w2 c := by
  rw [Chain.call_split, Chain.call_split]
  rcases Chain.sub_mode_cases c.model with h | h <;>
    simp [h, chatOutcome, complOutcome, h1, h2, h3, h4]

theorem chain_call_deterministic_witness :
    Chain.call wEx bcEx = Chain.call wEx2 bcEx :=
  chain_call_deterministic wEx wEx2 bcEx rfl rfl (by decide) rfl

/-- C6 fails as stated: the outcome of `Chain.call` also depends on the
`ctx` attribute of the bridge context (the speaker names passed to the
wrapper come from it), so two bridge contexts that agree on prompt, system
prompt, model, streaming flag and history can still yield different
behaviour. -/
theorem chain_call_fields_only_cex :
    cexC1.prompt = cexC2.prompt ∧
    cexC1.system_prompt = cexC2.system_prompt ∧
    cexC1.model = cexC2.model ∧
    cexC1.stream = cexC2.stream ∧
    cexC1.history = cexC2.history ∧
    Chain.call wEx cexC1 ≠ Chain.call wEx cexC2 := by
  refine ⟨rfl, rfl, rfl, rfl, rfl, ?_⟩
  decide

/-- C6 amended: the outcome of `Chain.call` depends on its bridge context
only through the prompt, system prompt, target model, streaming flag,
history, and the attached context item: two bridge contexts agreeing on
those six yield the same behaviour. -/
theorem chain_call_depends_only (w : Wrappers) (c1 c2 : BridgeContext)
    (hp : c1.prompt = c2.prompt)
    (hsp : c1.system_prompt = c2.system_prompt)
    (hm : c1.model = c2.model)
    (hst : c1.stream = c2.stream)
    (hh : c1.history = c2.history)
    (hc : effCtx c1 = effCtx c2) :
    Chain.call w c1 = Chain.call w c2 := by
  have ha : callArgs c1 = callArgs c2 := by
    unfold callArgs
    rw [hp, hsp, hm, hst, hh, hc]
  rw [Chain.call_split, Chain.call_split, hm, ha, hst, hc]

theorem chain_call_depends_only_witness :
    Chain.call wEx cexC1 = Chain.call wEx cexC3 :=
  chain_call_depends_only wEx cexC1 cexC3 rfl rfl rfl rfl rfl rfl

/-- C8: with `stream` false and a `None` response from the selected wrapper,
`Chain.call` returns `False` and leaves the context item entirely unchanged
(no `set_output`, so output text and output name are untouched); with
`stream` true, a `None` response still yields `True`. -/
theorem chain_call_none_response (w : Wrappers) (c : BridgeContext) :
    (c.stream = false → Chain.sub_mode c.model = "chat" →
      w.chatSend (callArgs c) = Except.ok none →
      (Chain.call w c).ret = Except.ok false ∧ (Chain.call w c).ctx = effCtx c) ∧
    (c.stream = false → Chain.sub_mode c.model = "completion" →
      w.complSend (callArgs c) = Except.ok none →
      (Chain.call w c).ret = Except.ok false ∧ (Chain.call w c).ctx = effCtx c) ∧
    (c.stream = true → Chain.sub_mode c.model = "chat" →
      w.chatSend (callArgs c) = Except.ok none →
      (Chain.call w c).ret = Except.ok true) ∧
    (c.stream = true → Chain.sub_mode c.model = "completion" →
      w.complSend (callArgs c) = Except.ok none →
      (Chain.call w c).ret = Except.ok true) := by
  refine ⟨fun hs hm hsend => ?_, fun hs hm hsend => ?_,
    fun hs hm hsend => ?_, fun hs hm hsend => ?_⟩ <;>
    rw [Chain.call_split] <;>
    simp [hm, chatOutcome, complOutcome, hsend, hs]

theorem chain_call_none_response_witness :
    bcEx.stream = false ∧
    (Chain.call wNone bcEx).ret = Except.ok false ∧
    (Chain.call wNone bcEx).ctx = effCtx bcEx :=
  ⟨rfl, (chain_call_none_response wNone bcEx).1 rfl (by decide) (by decide)⟩

/-- C9: when the selected wrapper's send raises, `Chain.call` logs the
exception through the window debug logger, re-raises the same exception, and
the remainder of the call never runs: the context item is left unchanged. -/
theorem chain_call_raises (w : Wrappers) (c : BridgeContext) (e : Exc) :
    (Chain.sub_mode c.model = "chat" →
      w.chatSend (callArgs c) = Except.error e →
      (Chain.call w c).ret = Except.error e ∧
      (Chain.call w c).logged = [e] ∧
      (Chain.call w c).ctx = effCtx c) ∧
    (Chain.sub_mode c.model = "completion" →
      w.complSend (callArgs c) = Except.error e →
      (Chain.call w c).ret = Except.error e ∧
      (Chain.call w c).logged = [e] ∧
      (Chain.call w c).ctx = effCtx c) := by
  constructor <;> intro hm hsend <;> rw [Chain.call_split] <;>
    simp [hm, chatOutcome, complOutcome, hsend]

theorem chain_call_raises_witness :
    (Chain.call wRaise bcEx).ret = Except.error { tag := 5 } ∧
    (Chain.call wRaise bcEx).logged = [{ tag := 5 }] ∧
    (Chain.call wRaise bcEx).ctx = effCtx bcEx :=
  (chain_call_raises wRaise bcEx { tag := 5 }).1 (by decide) (by decide)

/-- C7: when the mode change is not locked (the chat input is not
generating), `Mode.select(idx)` resolves the mode name via
`modes.get_by_idx(idx)`, applies it via `Mode.set`, and then dispatches a
`MODE_SELECT` event whose `value` is exactly that resolved mode name. -/
theorem mode_select_dispatches (win : WindowState) (idx : Nat)
    (h : Mode.change_locked win = false) :
    Mode.select win idx =
      Mode.set win (win.get_by_idx idx) ++
      [ModeEffect.dispatch Event.MODE_SELECT (win.get_by_idx idx)] := by
  unfold Mode.select
  simp [h]

theorem mode_select_dispatches_witness :
    Mode.change_locked winEx = false ∧
    Mode.select winEx 3 =
      Mode.set winEx (winEx.get_by_idx 3) ++
      [ModeEffect.dispatch Event.MODE_SELECT (winEx.get_by_idx 3)] :=
  ⟨rfl, mode_select_dispatches winEx 3 rfl⟩

/-- C10: for every mode name, `Mode.set(mode)` writes that name to the
`mode` configuration key and unconditionally resets both the `model` and the
`preset` configuration keys to the empty string, whatever the mode: its
configuration writes are exactly those three, in that order. -/
theorem mode_set_config_writes (win : WindowState) (mode : String) :
    configWrites (Mode.set win mode) =
      [("mode", mode), ("model", ""), ("preset", "")] := by
  unfold Mode.set configWrites
  by_cases h : mode = "assistant" <;>
    by_cases h2 : (win.ctx_current.isSome && win.ctx_assistant.isSome) = true <;>
    simp [h, h2]
